import Mathlib

/-!
Verification of the CLI-AI-Chatbot repository: a shallow embedding of the
history/session-resumption logic in `src/chatbot.py`, `src/history.py`,
`src/context.py`, `src/gemini.py` and of the legacy duplicate program
`cli_chatbot.py`, followed by theorems settling the specification claims.

File contents (history file, contexts file, config file) are modelled as JSON
values plus two non-value states: the file being absent (Python raises
FileNotFoundError on open) and the file being present but unparseable
(Python raises json.JSONDecodeError in json.load). Console rendering is not
modelled; interactive input is modelled as a list of input lines consumed in
order, with `none` as the result of a loop that never reaches a normal exit
on the given lines (the real program would block for more input or raise).
String lowercasing and integer parsing are modelled at the ASCII level, which
is exact for every token the program compares against ("y", "n", "!exit",
decimal menu indices).
-/

namespace CliChatbot

/-- A parsed JSON value, as produced by Python json.load: objects become
dicts (modelled as key-value lists with the keys assumed distinct, as a
parsed dict has), arrays become lists, and scalars map across. Numbers are
modelled as rationals, which cover every literal the program handles. -/
inductive Json where
  | null : Json
  | bool (b : Bool) : Json
  | num (q : ℚ) : Json
  | str (s : String) : Json
  | arr (elems : List Json) : Json
  | obj (fields : List (String × Json)) : Json
deriving Repr

/-- The state of one file on disk: absent (open raises FileNotFoundError),
present but not valid JSON (json.load raises json.JSONDecodeError), or
present with a parsed JSON value. -/
inductive FileState where
  | absent : FileState
  | corrupt : FileState
  | content (j : Json) : FileState
deriving Repr

/-- Python dict lookup d[k] on a parsed JSON object, as an Option. -/
def jlookup (fields : List (String × Json)) (k : String) : Option Json :=
  (fields.find? (fun p => p.1 = k)).map (fun p => p.2)

/-- The history entry built by save_chat_to_history (src/history.py line 38):
a dict with the given role and a one-element parts list. -/
def mkEntry (role content : String) : Json :=
  Json.obj [("role", Json.str role), ("parts", Json.arr [Json.str content])]

/-- get_history (src/history.py lines 7-15): json.load the history file,
returning [] when the file is absent or fails to parse; both exception
types are caught, so no exception reaches the caller. No validation is
performed on a successfully parsed value. -/
def get_history (fs : FileState) : Json :=
  match fs with
  | .absent => Json.arr []
  | .corrupt => Json.arr []
  | .content j => j

/-- delete_history (src/history.py lines 18-24): overwrite the history file
with the literal text "[]", i.e. the empty JSON array. -/
def delete_history (_fs : FileState) : FileState :=
  FileState.content (Json.arr [])

/-- The inner load of save_chat_to_history (src/history.py lines 33-37):
absent or unparseable content is replaced by the empty list. A parsed value
that is not a list makes the subsequent history.append raise AttributeError
(caught by the outer handler), modelled as `none`. -/
def load_or_empty (fs : FileState) : Option (List Json) :=
  match fs with
  | .absent => some []
  | .corrupt => some []
  | .content (Json.arr xs) => some (xs)
  | .content _ => none

/-- save_chat_to_history (src/history.py lines 27-48): load the current
list (empty on absent/corrupt file), append one dict with role and
one-element parts, write the whole list back. Any exception in the body
(e.g. appending to a non-list) is caught by the outer handler, which only
prints an error, leaving the file unchanged; the `ty` argument is used only
in that error message. -/
def save_chat_to_history (ty role content : String) (fs : FileState) : FileState :=
  match load_or_empty fs with
  | some xs => FileState.content (Json.arr (xs ++ [mkEntry role content]))
  | none =>
    let _ := ty
    fs

/-- A finite sequence of appends, one save_chat_to_history call per
(type, role, content) triple, in order. -/
def write_all (msgs : List (String × String × String)) (fs : FileState) : FileState :=
  msgs.foldl (fun s m => save_chat_to_history m.1 m.2.1 m.2.2 s) fs

/-- Python equality test `h == []` on a json.load result: true exactly for
the empty JSON array. -/
def is_empty_list (j : Json) : Bool :=
  match j with
  | Json.arr [] => true
  | _ => false

/-- The resume gate in start_chatbot (src/chatbot.py line 83):
`if history != []` decides whether the resume prompt is shown. -/
def resume_gate (fs : FileState) : Bool :=
  !(is_empty_list (get_history fs))

/-- Python str.lower(), at the ASCII level (exact for every comparison the
program performs: "y", "n", "!exit"). Implemented on the character list so
that it evaluates by kernel reduction. -/
def pyLower (s : String) : String :=
  String.mk (s.data.map Char.toLower)

/-- The ASCII whitespace stripped by Python str.strip(), which int() applies
to its argument. -/
def isSpaceChar (c : Char) : Bool :=
  c = ' ' || c = '\t' || c = '\n' || c = '\r' || c = '\x0b' || c = '\x0c'

/-- Value of a list of decimal digit characters. -/
def digitsToNat (ds : List Char) : Nat :=
  ds.foldl (fun n c => 10 * n + (c.toNat - 48)) 0

/-- Python int(s) on a string, as an Option: surrounding whitespace is
stripped, an optional sign precedes a non-empty run of decimal digits;
anything else raises ValueError, modelled as `none`. (Non-ASCII digits and
digit-group underscores, which CPython also accepts, are not modelled.) -/
def pyInt? (s : String) : Option Int :=
  let t := ((s.data.dropWhile isSpaceChar).reverse.dropWhile isSpaceChar).reverse
  match t with
  | [] => none
  | c :: rest =>
    let p : Int × List Char :=
      if c = '-' then (-1, rest) else if c = '+' then (1, rest) else (1, c :: rest)
    if p.2 ≠ [] ∧ p.2.all Char.isDigit then some (p.1 * digitsToNat p.2) else none

/-- The resume-choice loop of start_chatbot (src/chatbot.py lines 84-95),
entered when the loaded history differs from []. Inputs are consumed one
per iteration; `history` is the working log and `fs` the history file.
A line lowercasing to "n" deletes the persisted history and empties the
working log; a line lowercasing to "y" keeps both; any other line
re-prompts. The result is the working log, the file state and the unread
inputs; `none` means the inputs ran out with the loop still waiting. -/
def resume_loop : List String → Json → FileState → Option (Json × FileState × List String)
  | [], _, _ => none
  | r :: rest, history, fs =>
    if pyLower r = "n" then some (Json.arr [], delete_history fs, rest)
    else if pyLower r = "y" then some (history, fs, rest)
    else resume_loop rest history fs

/-- get_contexts (src/context.py lines 5-13): json.load the contexts file,
with `None` (here `none`) when the file is absent or fails to parse. No
validation is performed on a parsed value. -/
def get_contexts (fs : FileState) : Option Json :=
  match fs with
  | .absent => none
  | .corrupt => none
  | .content j => some j

/-- Python truthiness of a json.load value, as tested by `if contexts:`
(src/chatbot.py line 100). -/
def pyTruthy (j : Json) : Bool :=
  match j with
  | Json.null => false
  | Json.bool b => b
  | Json.num q => decide (q ≠ 0)
  | Json.str s => !(s.data.isEmpty)
  | Json.arr xs => !xs.isEmpty
  | Json.obj fields => !fields.isEmpty

/-- One context entry as the selection code uses it: the program reads
entry["name"] (any value, only printed) and entry["context"] (the seed
text appended to history, a string in every well-formed contexts file). -/
structure PyContext where
  name : Json
  context : String
deriving Repr

/-- Reading one element of the contexts array as a persona: a JSON object
with a "name" field and a string "context" field; anything else makes the
selection code raise (TypeError or KeyError on the subscript), which
start_chatbot does not catch. -/
def decodeContext (j : Json) : Option PyContext :=
  match j with
  | Json.obj kvs =>
    match jlookup kvs "name", jlookup kvs "context" with
    | some n, some (Json.str c) => some ⟨n, c⟩
    | _, _ => none
  | _ => none

/-- Reading the whole contexts value as a persona list: a JSON array of
well-formed persona objects. -/
def decodeContexts (j : Json) : Option (List PyContext) :=
  match j with
  | Json.arr xs => xs.mapM decodeContext
  | _ => none

/-- One round of the selection check (src/chatbot.py lines 104-110):
int(input) - 1 must land in [0, n) where n is the number of contexts;
a ValueError from int() or an out-of-range index means re-prompt.
Returns the accepted 0-based index. -/
def valid_sel (n : Nat) (s : String) : Option Nat :=
  match pyInt? s with
  | none => none
  | some v => if 0 ≤ v - 1 ∧ v - 1 < (n : Int) then some (v - 1).toNat else none

/-- The persona-selection input loop (src/chatbot.py lines 103-110): consume
inputs until one passes valid_sel; `none` means the inputs ran out. -/
def persona_loop (n : Nat) : List String → Option (Nat × List String)
  | [] => none
  | s :: rest =>
    match valid_sel n s with
    | some k => some (k, rest)
    | none => persona_loop n rest

/-- The persona-selection phase of start_chatbot (src/chatbot.py lines
97-115), entered when the working log equals []. `cf` is the contexts file,
`hfs` the history file. get_contexts returning None, or a falsy value
(in particular the empty array), skips selection and leaves the empty
working log and the history file untouched. Otherwise the menu loop runs;
a valid selection k seeds the working log with one user Message holding the
selected context text and persists it via save_chat_to_history. `none`
covers the runs with no normal exit on the given inputs: inputs exhausted,
or a truthy contexts value the subscripting code would raise on. -/
def persona_phase (cf : FileState) (inputs : List String) (hfs : FileState) :
    Option (Json × FileState × List String) :=
  match get_contexts cf with
  | none => some (Json.arr [], hfs, inputs)
  | some j =>
    if pyTruthy j then
      match decodeContexts j with
      | none => none
      | some ctxs =>
        match persona_loop ctxs.length inputs with
        | none => none
        | some (k, rest) =>
          match ctxs[k]? with
          | none => none
          | some sel =>
            some (Json.arr [mkEntry "user" sel.context],
                  save_chat_to_history "context" "user" sel.context hfs, rest)
    else some (Json.arr [], hfs, inputs)

/-- The outcome the remote model produces for one prompt: a reply text, or
an exception from chat.send_message (network or service failure). -/
inductive ModelResult where
  | reply (text : String) : ModelResult
  | failure : ModelResult
deriving Repr

/-- What one chat-loop iteration did. `exited` is the break on the exit
token (farewell printed, process exits 0); `reprompted` is the no-op turn on
empty input; `completed t` is a full turn whose rendered reply is t;
`crashed` is sys.exit(1) from the send_message error handler. -/
inductive TurnOutcome where
  | exited : TurnOutcome
  | reprompted : TurnOutcome
  | completed (text : String) : TurnOutcome
  | crashed : TurnOutcome
deriving Repr

/-- One iteration of the chat loop (src/chatbot.py lines 122-133) together
with send_message (src/gemini.py lines 57-75), as a function of the input
line, the remote model behaviour and the history file. An input lowercasing
to "!exit" breaks out; an empty input falls through to the next prompt;
otherwise the user Message is appended first, then the model is called:
on a reply the model Message is appended and the reply rendered, on a
failure the handler prints and exits 1 with no further append. -/
def chat_turn (model : String → ModelResult) (prompt : String) (fs : FileState) :
    TurnOutcome × FileState :=
  if pyLower prompt = "!exit" then (TurnOutcome.exited, fs)
  else if prompt.data.isEmpty then (TurnOutcome.reprompted, fs)
  else
    let fs1 := save_chat_to_history "prompt" "user" prompt fs
    match model prompt with
    | ModelResult.reply t =>
      (TurnOutcome.completed t, save_chat_to_history "response" "model" t fs1)
    | ModelResult.failure => (TurnOutcome.crashed, fs1)

/-- save_prompt_to_history (cli_chatbot.py lines 203-224), the legacy
duplicate writer: identical read-modify-write, but the appended dict is
built with "parts": prompt — the raw string, not a one-element list. -/
def save_prompt_to_history (prompt : String) (fs : FileState) : FileState :=
  match load_or_empty fs with
  | some xs =>
    FileState.content (Json.arr
      (xs ++ [Json.obj [("role", Json.str "user"), ("parts", Json.str prompt)]]))
  | none => fs

/-- save_response_to_history (cli_chatbot.py lines 180-201), the legacy
duplicate writer for model replies: appends a dict built with
"parts": response — the raw string, not a one-element list. -/
def save_response_to_history (response : String) (fs : FileState) : FileState :=
  match load_or_empty fs with
  | some xs =>
    FileState.content (Json.arr
      (xs ++ [Json.obj [("role", Json.str "model"), ("parts", Json.str response)]]))
  | none => fs

/-- The data-model invariant on one history entry: an object with a role
field and a parts field whose value is a non-empty array. -/
def entryOK (j : Json) : Bool :=
  match j with
  | Json.obj kvs =>
    (jlookup kvs "role").isSome &&
      (match jlookup kvs "parts" with
       | some (Json.arr ps) => !ps.isEmpty
       | _ => false)
  | _ => false

/-- The default generation parameters (src/chatbot.py line 47). -/
def default_config : List (String × Json) :=
  [("temperature", Json.num 1), ("max_tokens", Json.num 200),
   ("top_k", Json.num 40), ("top_p", Json.num (9/10))]

/-- The four fields passed to genai.GenerationConfig (src/chatbot.py
lines 58-63), holding whatever JSON values the merged dict supplied. -/
structure GenerationConfig where
  max_output_tokens : Json
  temperature : Json
  top_k : Json
  top_p : Json
deriving Repr

/-- Lookup in the merged dict of src/chatbot.py line 55: an override value
from the config file wins when its key is present, the default value
otherwise. -/
def mergedGet (overrides : List (String × Json)) (k : String) : Json :=
  match jlookup overrides k with
  | some v => v
  | none => (jlookup default_config k).getD Json.null

/-- The GenerationConfig built from a merged override dict. -/
def mkGenConfig (overrides : List (String × Json)) : GenerationConfig :=
  { max_output_tokens := mergedGet overrides "max_tokens"
    temperature := mergedGet overrides "temperature"
    top_k := mergedGet overrides "top_k"
    top_p := mergedGet overrides "top_p" }

/-- The exception load_configuration can let escape: json.load raising
json.JSONDecodeError (only FileNotFoundError is caught), or the dict merge
raising TypeError when the parsed value is not a mapping. -/
inductive PyError where
  | jsonDecodeError : PyError
  | typeError : PyError
deriving Repr, DecidableEq

/-- load_configuration (src/chatbot.py lines 41-63): an absent config file
falls back to the defaults (after a console notice); a present file is
json.load-ed with no handler for json.JSONDecodeError, so a parse failure
propagates; a parsed object is merged over the defaults with the merge
keeping override values for present keys, and only the four known keys are
read out (unknown keys are ignored); a parsed non-object makes the
double-splat merge raise TypeError, which also propagates. -/
def load_configuration (fs : FileState) : Except PyError GenerationConfig :=
  match fs with
  | .absent => Except.ok (mkGenConfig default_config)
  | .corrupt => Except.error PyError.jsonDecodeError
  | .content (Json.obj kvs) => Except.ok (mkGenConfig kvs)
  | .content _ => Except.error PyError.typeError

/-! Helper lemmas shared by the claim theorems. -/

/-- Appending to a parsed list file extends the stored array by one entry. -/
theorem save_chat_on_list (t role content : String) (xs : List Json) :
    save_chat_to_history t role content (FileState.content (Json.arr xs)) =
      FileState.content (Json.arr (xs ++ [mkEntry role content])) := rfl

/-- Reading a file whose inner load yields the list xs gives back exactly
the array over xs. -/
theorem get_history_of_load (fs : FileState) (xs : List Json)
    (h : load_or_empty fs = some xs) : get_history fs = Json.arr xs := by
  cases fs with
  | absent =>
    simp only [load_or_empty, Option.some.injEq] at h
    simp [get_history, ← h]
  | corrupt =>
    simp only [load_or_empty, Option.some.injEq] at h
    simp [get_history, ← h]
  | content j =>
    cases j with
    | arr elems =>
      simp only [load_or_empty, Option.some.injEq] at h
      simp [get_history, ← h]
    | null => exact Option.noConfusion h
    | bool b => exact Option.noConfusion h
    | num q => exact Option.noConfusion h
    | str s => exact Option.noConfusion h
    | obj fields => exact Option.noConfusion h

/-- Reading back after a sequence of appends over a file whose load yields
xs gives xs extended by the appended entries, in order. -/
theorem get_history_write_all (msgs : List (String × String × String)) :
    ∀ (fs : FileState) (xs : List Json), load_or_empty fs = some xs →
      get_history (write_all msgs fs) =
        Json.arr (xs ++ msgs.map (fun m => mkEntry m.2.1 m.2.2)) := by
  induction msgs with
  | nil =>
    intro fs xs h
    have hr := get_history_of_load fs xs h
    simpa [write_all] using hr
  | cons m msgs ih =>
    intro fs xs h
    have hs : save_chat_to_history m.1 m.2.1 m.2.2 fs =
        FileState.content (Json.arr (xs ++ [mkEntry m.2.1 m.2.2])) := by
      simp [save_chat_to_history, h]
    have hw : write_all (m :: msgs) fs =
        write_all msgs (save_chat_to_history m.1 m.2.1 m.2.2 fs) := rfl
    rw [hw, hs,
      ih (FileState.content (Json.arr (xs ++ [mkEntry m.2.1 m.2.2])))
        (xs ++ [mkEntry m.2.1 m.2.2]) rfl]
    simp

/-- A selection accepted by valid_sel is a valid 0-based index. -/
theorem valid_sel_lt (n : Nat) (s : String) (k : Nat) (h : valid_sel n s = some k) :
    k < n := by
  unfold valid_sel at h
  cases hp : pyInt? s with
  | none => rw [hp] at h; cases h
  | some v =>
    rw [hp] at h
    have h2 : (if 0 ≤ v - 1 ∧ v - 1 < (n : Int) then some (v - 1).toNat
        else none) = some k := h
    by_cases hc : 0 ≤ v - 1 ∧ v - 1 < (n : Int)
    · rw [if_pos hc] at h2
      injection h2 with h1
      omega
    · rw [if_neg hc] at h2; cases h2

/-- Default values packed as a GenerationConfig. -/
theorem mkGenConfig_default :
    mkGenConfig default_config =
      ⟨Json.num 200, Json.num 1, Json.num 40, Json.num (9/10)⟩ := rfl

/-- Merged lookup in terms of the override dict and a known default. -/
theorem mergedGet_eq (kvs : List (String × Json)) (k : String) (d : Json)
    (hd : jlookup default_config k = some d) :
    mergedGet kvs k = (jlookup kvs k).getD d := by
  cases h : jlookup kvs k <;> simp [mergedGet, h, hd]

/-! Claim theorems. -/

/-- C1: in the resume-choice loop, a line lowercasing to "y" keeps the
working log and the history file unchanged and exits the loop; a line
lowercasing to "n" exits with an empty working log after overwriting the
history file so that a read returns the empty array; any other line
consumes only that line, changing no state. -/
theorem resume_loop_spec :
    (∀ (r : String) (rest : List String) (h : Json) (fs : FileState),
      pyLower r = "y" →
      resume_loop (r :: rest) h fs = some (h, fs, rest))
    ∧ (∀ (r : String) (rest : List String) (h : Json) (fs : FileState),
      pyLower r = "n" →
      resume_loop (r :: rest) h fs = some (Json.arr [], delete_history fs, rest)
        ∧ get_history (delete_history fs) = Json.arr [])
    ∧ (∀ (r : String) (rest : List String) (h : Json) (fs : FileState),
      pyLower r ≠ "y" → pyLower r ≠ "n" →
      resume_loop (r :: rest) h fs = resume_loop rest h fs) := by
  refine ⟨?_, ?_, ?_⟩
  · intro r rest h fs hy
    have hn : ¬ pyLower r = "n" := by rw [hy]; decide
    show (if pyLower r = "n" then some (Json.arr [], delete_history fs, rest)
      else if pyLower r = "y" then some (h, fs, rest)
      else resume_loop rest h fs) = some (h, fs, rest)
    rw [if_neg hn, if_pos hy]
  · intro r rest h fs hn
    constructor
    · show (if pyLower r = "n" then some (Json.arr [], delete_history fs, rest)
        else if pyLower r = "y" then some (h, fs, rest)
        else resume_loop rest h fs) = some (Json.arr [], delete_history fs, rest)
      rw [if_pos hn]
    · rfl
  · intro r rest h fs hy hn
    show (if pyLower r = "n" then some (Json.arr [], delete_history fs, rest)
      else if pyLower r = "y" then some (h, fs, rest)
      else resume_loop rest h fs) = resume_loop rest h fs
    rw [if_neg hn, if_neg hy]

/-- C1 witness: the inputs ["x", "Y"] re-prompt once and then behave as a
direct "y" (log and file untouched), and the input ["n"] clears the
persisted history and empties the working log. -/
theorem resume_loop_spec_witness :
    resume_loop ["x", "Y"] (Json.num 5) FileState.absent =
      some (Json.num 5, FileState.absent, [])
    ∧ resume_loop ["n"] (Json.num 5) FileState.corrupt =
      some (Json.arr [], FileState.content (Json.arr []), [])
    ∧ get_history (FileState.content (Json.arr [])) = Json.arr [] := by
  refine ⟨?_, ?_, ?_⟩
  · have h1 := resume_loop_spec.2.2 "x" ["Y"] (Json.num 5) FileState.absent
      (by decide) (by decide)
    have h2 := resume_loop_spec.1 "Y" [] (Json.num 5) FileState.absent (by decide)
    rw [h1, h2]
  · have h3 := (resume_loop_spec.2.1 "n" [] (Json.num 5) FileState.corrupt rfl).1
    rw [h3]; rfl
  · exact (resume_loop_spec.2.1 "n" [] (Json.num 5) FileState.corrupt rfl).2

/-- C5: appending any finite sequence of messages one at a time to an
absent or empty history file and then reading yields exactly those
messages, as one-part entries, in append order. -/
theorem write_all_read_round_trip (msgs : List (String × String × String))
    (fs : FileState)
    (h : fs = FileState.absent ∨ fs = FileState.content (Json.arr [])) :
    get_history (write_all msgs fs) =
      Json.arr (msgs.map (fun m => mkEntry m.2.1 m.2.2)) := by
  have hl : load_or_empty fs = some [] := by rcases h with rfl | rfl <;> rfl
  simpa using get_history_write_all msgs fs [] hl

/-- C5 witness: two appends on an absent file read back as the two entries
in order. -/
theorem write_all_read_round_trip_witness :
    get_history (write_all [("prompt", "user", "a"), ("response", "model", "b")]
        FileState.absent) =
      Json.arr [mkEntry "user" "a", mkEntry "model" "b"] := by
  have h := write_all_read_round_trip
    [("prompt", "user", "a"), ("response", "model", "b")] FileState.absent (Or.inl rfl)
  exact h

/-- C6: reading an absent history file and reading an unparseable one both
yield the empty array, identical to reading a file containing []; the read
is total (it returns a plain value, never an exception). -/
theorem get_history_error_semantics :
    get_history FileState.absent = Json.arr []
    ∧ get_history FileState.corrupt = Json.arr []
    ∧ get_history FileState.absent = get_history (FileState.content (Json.arr []))
    ∧ get_history FileState.corrupt = get_history (FileState.content (Json.arr [])) :=
  ⟨rfl, rfl, rfl, rfl⟩

/-- C9: one append on a history file with unparseable content overwrites it
with exactly the one-element array holding the new entry; the old content
is gone. -/
theorem save_chat_on_corrupt_overwrites (t role content : String) :
    save_chat_to_history t role content FileState.corrupt =
      FileState.content (Json.arr [mkEntry role content]) := rfl

/-- C9 witness: one append of a user prompt on an unparseable file leaves
exactly the one fresh entry. -/
theorem save_chat_on_corrupt_overwrites_witness :
    save_chat_to_history "prompt" "user" "p" FileState.corrupt =
      FileState.content (Json.arr [mkEntry "user" "p"]) :=
  save_chat_on_corrupt_overwrites "prompt" "user" "p"

/-- C10: reading a file holding any parsed JSON value returns that value
unchanged (no structural validation), and the bootstrap resume gate fires
for every value other than the empty array. -/
theorem get_history_no_validation :
    (∀ j : Json, get_history (FileState.content j) = j)
    ∧ (∀ j : Json, is_empty_list j = false →
        resume_gate (FileState.content j) = true) := by
  refine ⟨fun j => rfl, fun j h => ?_⟩
  simp [resume_gate, get_history, h]

/-- C10 witness: a JSON object stored in the history file is returned as-is
by the read and triggers the resume prompt. -/
theorem get_history_no_validation_witness :
    get_history (FileState.content (Json.obj [("a", Json.num 1)])) =
      Json.obj [("a", Json.num 1)]
    ∧ resume_gate (FileState.content (Json.obj [("a", Json.num 1)])) = true :=
  ⟨get_history_no_validation.1 _, get_history_no_validation.2 _ rfl⟩

/-- C3 counterexample: a present but unparseable config file does not load
as the defaults; load_configuration lets the json.JSONDecodeError escape,
so loading the Generation Config can fail. -/
theorem load_configuration_corrupt_raises :
    load_configuration FileState.corrupt = Except.error PyError.jsonDecodeError
    ∧ load_configuration FileState.corrupt ≠ Except.ok (mkGenConfig default_config) :=
  ⟨rfl, fun h => Except.noConfusion h⟩

/-- C3 (amended): an absent config file yields all defaults
(temperature 1, max_tokens 200, top_k 40, top_p 9/10, after a console
notice); a present but unparseable file raises json.JSONDecodeError, which
is not caught; a parseable JSON object yields, for each of the four known
keys, the override value when the key is present and the default otherwise,
with all other keys ignored. -/
theorem load_configuration_spec :
    load_configuration FileState.absent =
      Except.ok ⟨Json.num 200, Json.num 1, Json.num 40, Json.num (9/10)⟩
    ∧ load_configuration FileState.corrupt = Except.error PyError.jsonDecodeError
    ∧ ∀ kvs : List (String × Json),
        load_configuration (FileState.content (Json.obj kvs)) =
          Except.ok
            { max_output_tokens := (jlookup kvs "max_tokens").getD (Json.num 200)
              temperature := (jlookup kvs "temperature").getD (Json.num 1)
              top_k := (jlookup kvs "top_k").getD (Json.num 40)
              top_p := (jlookup kvs "top_p").getD (Json.num (9/10)) } := by
  refine ⟨rfl, rfl, fun kvs => ?_⟩
  show Except.ok (mkGenConfig kvs) = _
  rw [show mkGenConfig kvs =
    { max_output_tokens := (jlookup kvs "max_tokens").getD (Json.num 200)
      temperature := (jlookup kvs "temperature").getD (Json.num 1)
      top_k := (jlookup kvs "top_k").getD (Json.num 40)
      top_p := (jlookup kvs "top_p").getD (Json.num (9/10)) } from ?_]
  unfold mkGenConfig
  rw [mergedGet_eq kvs "max_tokens" (Json.num 200) rfl,
    mergedGet_eq kvs "temperature" (Json.num 1) rfl,
    mergedGet_eq kvs "top_k" (Json.num 40) rfl,
    mergedGet_eq kvs "top_p" (Json.num (9/10)) rfl]

/-- C3 witness: a config file overriding temperature and carrying an
unknown key keeps the other three defaults and ignores the unknown key. -/
theorem load_configuration_spec_witness :
    load_configuration (FileState.content (Json.obj
        [("temperature", Json.num 2), ("unknown", Json.null)])) =
      Except.ok ⟨Json.num 200, Json.num 2, Json.num 40, Json.num (9/10)⟩ := by
  have h := load_configuration_spec.2.2
    [("temperature", Json.num 2), ("unknown", Json.null)]
  rw [h]
  rfl

/-- C4 counterexample: the legacy writer save_prompt_to_history
(cli_chatbot.py) produces an entry whose parts field is the raw string,
not a non-empty array, so that entry violates the data-model invariant. -/
theorem save_prompt_parts_not_a_list :
    save_prompt_to_history "hi" FileState.absent =
      FileState.content (Json.arr
        [Json.obj [("role", Json.str "user"), ("parts", Json.str "hi")]])
    ∧ entryOK (Json.obj [("role", Json.str "user"), ("parts", Json.str "hi")]) = false :=
  ⟨rfl, rfl⟩

/-- C4 (amended): every entry written via save_chat_to_history — the writer
the src package uses for user prompts, model responses and the persona
seed — has a role field and a parts field holding a one-element array, so a
write onto a file of invariant-satisfying entries leaves every stored entry
satisfying the invariant; the legacy cli_chatbot.py writers instead store
the raw string in parts. -/
theorem save_chat_entry_invariant (t role content : String) (fs : FileState)
    (xs : List Json) (h : load_or_empty fs = some xs)
    (hOK : ∀ j ∈ xs, entryOK j = true) :
    ∃ ys, save_chat_to_history t role content fs = FileState.content (Json.arr ys)
      ∧ ys = xs ++ [mkEntry role content]
      ∧ ∀ j ∈ ys, entryOK j = true := by
  refine ⟨xs ++ [mkEntry role content], by simp [save_chat_to_history, h], rfl, ?_⟩
  intro j hj
  rcases List.mem_append.mp hj with hx | hx
  · exact hOK j hx
  · rw [List.mem_singleton.mp hx]
    rfl

/-- C4 witness: one append on an absent file stores a single entry that
satisfies the invariant. -/
theorem save_chat_entry_invariant_witness :
    ∃ ys, save_chat_to_history "prompt" "user" "hello" FileState.absent =
        FileState.content (Json.arr ys)
      ∧ ys = [] ++ [mkEntry "user" "hello"]
      ∧ ∀ j ∈ ys, entryOK j = true :=
  save_chat_entry_invariant "prompt" "user" "hello" FileState.absent [] rfl
    (fun j hj => absurd hj (List.not_mem_nil j))

/-- C7: one chat-loop iteration. A line lowercasing to "!exit" exits with
the file untouched and without consulting the model; the empty line
re-prompts with the file untouched and without consulting the model; any
other line appends the user entry, then queries the model, and on a reply
appends the model entry, so the final file is the input file with the user
entry then the model entry appended. -/
theorem chat_turn_spec :
    (∀ (m m2 : String → ModelResult) (p : String) (fs : FileState),
      pyLower p = "!exit" →
      chat_turn m p fs = (TurnOutcome.exited, fs)
        ∧ chat_turn m p fs = chat_turn m2 p fs)
    ∧ (∀ (m m2 : String → ModelResult) (fs : FileState),
      chat_turn m "" fs = (TurnOutcome.reprompted, fs)
        ∧ chat_turn m "" fs = chat_turn m2 "" fs)
    ∧ (∀ (m : String → ModelResult) (p t : String) (fs : FileState),
      pyLower p ≠ "!exit" → p.data.isEmpty = false → m p = ModelResult.reply t →
      chat_turn m p fs =
        (TurnOutcome.completed t,
          save_chat_to_history "response" "model" t
            (save_chat_to_history "prompt" "user" p fs))) := by
  refine ⟨?_, ?_, ?_⟩
  · intro m m2 p fs he
    constructor
    · unfold chat_turn
      rw [if_pos he]
    · unfold chat_turn
      rw [if_pos he, if_pos he]
  · intro m m2 fs
    exact ⟨rfl, rfl⟩
  · intro m p t fs he hne hm
    unfold chat_turn
    rw [if_neg he, if_neg (by rw [hne]; exact Bool.false_ne_true), hm]

/-- C7 witness: "!ExIt" exits leaving an unparseable file untouched; the
empty line re-prompts; "hi" with a replying model appends the user entry
then the model entry. -/
theorem chat_turn_spec_witness :
    chat_turn (fun _ => ModelResult.reply "ok") "!ExIt" FileState.corrupt =
      (TurnOutcome.exited, FileState.corrupt)
    ∧ chat_turn (fun _ => ModelResult.reply "ok") "" FileState.corrupt =
      (TurnOutcome.reprompted, FileState.corrupt)
    ∧ chat_turn (fun _ => ModelResult.reply "ok") "hi" FileState.absent =
      (TurnOutcome.completed "ok",
        FileState.content (Json.arr [mkEntry "user" "hi", mkEntry "model" "ok"])) := by
  refine ⟨(chat_turn_spec.1 _ (fun _ => ModelResult.failure) "!ExIt"
      FileState.corrupt (by decide)).1,
    (chat_turn_spec.2.1 _ (fun _ => ModelResult.failure) FileState.corrupt).1, ?_⟩
  have h := chat_turn_spec.2.2 (fun _ => ModelResult.reply "ok") "hi" "ok"
    FileState.absent (by decide) (by decide) rfl
  rw [h]
  rfl

/-- C8: a turn is not atomic under persistence. For a non-empty non-exit
line whose model call fails, the iteration ends in the crash outcome with
the history file already rewritten to the old entries plus the un-replied
user entry — the prompt is persisted strictly before the model call and is
not rolled back. -/
theorem chat_turn_persists_prompt_before_failure
    (m : String → ModelResult) (p : String) (fs : FileState) (xs : List Json)
    (he : pyLower p ≠ "!exit") (hne : p.data.isEmpty = false)
    (hm : m p = ModelResult.failure) (h : load_or_empty fs = some xs) :
    chat_turn m p fs =
      (TurnOutcome.crashed, FileState.content (Json.arr (xs ++ [mkEntry "user" p]))) := by
  unfold chat_turn
  rw [if_neg he, if_neg (by rw [hne]; exact Bool.false_ne_true), hm]
  simp [save_chat_to_history, h]

/-- C8 witness: on a history file holding one entry, the failing turn for
"hi" crashes with the file ending in the un-replied user entry. -/
theorem chat_turn_persists_prompt_before_failure_witness :
    chat_turn (fun _ => ModelResult.failure) "hi"
        (FileState.content (Json.arr [mkEntry "user" "seed"])) =
      (TurnOutcome.crashed,
        FileState.content (Json.arr [mkEntry "user" "seed", mkEntry "user" "hi"])) := by
  have h := chat_turn_persists_prompt_before_failure (fun _ => ModelResult.failure)
    "hi" (FileState.content (Json.arr [mkEntry "user" "seed"]))
    [mkEntry "user" "seed"] (by decide) (by decide) rfl rfl
  exact h

/-- C2: persona selection. With an absent or unparseable contexts file
(get_contexts None) or an empty context array, selection is skipped: the
working log stays empty, the history file is untouched and no input is
consumed. Otherwise each input failing valid_sel — because int() raises, or
because the 1-based value falls outside 1..n — only advances the loop, a
selection accepted by the loop is a valid 0-based index, and the first
accepted selection makes the phase return the working log holding exactly
one user Message with the selected context text, persisting that entry via
save_chat_to_history — which, on an initially empty or absent history file,
stores exactly that one entry. -/
theorem persona_phase_spec :
    (∀ (inputs : List String) (hfs : FileState),
      persona_phase FileState.absent inputs hfs = some (Json.arr [], hfs, inputs))
    ∧ (∀ (inputs : List String) (hfs : FileState),
      persona_phase FileState.corrupt inputs hfs = some (Json.arr [], hfs, inputs))
    ∧ (∀ (inputs : List String) (hfs : FileState),
      persona_phase (FileState.content (Json.arr [])) inputs hfs =
        some (Json.arr [], hfs, inputs))
    ∧ (∀ (n : Nat) (s : String) (rest : List String),
      valid_sel n s = none → persona_loop n (s :: rest) = persona_loop n rest)
    ∧ (∀ (n : Nat) (s : String),
      (pyInt? s = none ∨ ∃ v, pyInt? s = some v ∧ (v < 1 ∨ (n : Int) < v)) →
      valid_sel n s = none)
    ∧ (∀ (n : Nat) (inputs : List String) (k : Nat) (rest : List String),
      persona_loop n inputs = some (k, rest) → k < n)
    ∧ (∀ (j : Json) (ctxs : List PyContext) (inputs : List String)
        (hfs : FileState) (k : Nat) (rest : List String) (sel : PyContext),
      decodeContexts j = some ctxs → pyTruthy j = true →
      persona_loop ctxs.length inputs = some (k, rest) →
      ctxs[k]? = some sel →
      persona_phase (FileState.content j) inputs hfs =
        some (Json.arr [mkEntry "user" sel.context],
          save_chat_to_history "context" "user" sel.context hfs, rest))
    ∧ (∀ (t role content : String) (hfs : FileState),
      load_or_empty hfs = some [] →
      save_chat_to_history t role content hfs =
        FileState.content (Json.arr [mkEntry role content])) := by
  refine ⟨fun inputs hfs => rfl, fun inputs hfs => rfl, fun inputs hfs => rfl,
    ?_, ?_, ?_, ?_, ?_⟩
  · intro n s rest h
    simp [persona_loop, h]
  · intro n s h
    rcases h with h | ⟨v, hv, hr⟩
    · simp [valid_sel, h]
    · have hc : ¬ (0 ≤ v - 1 ∧ v - 1 < (n : Int)) := by
        rcases hr with h1 | h1 <;> omega
      simp only [valid_sel, hv, if_neg hc]
  · intro n inputs
    induction inputs with
    | nil => intro k rest h; cases h
    | cons s tl ih =>
      intro k rest h
      cases hv : valid_sel n s with
      | some k2 =>
        simp only [persona_loop, hv, Option.some.injEq, Prod.mk.injEq] at h
        rw [← h.1]
        exact valid_sel_lt n s k2 hv
      | none =>
        simp only [persona_loop, hv] at h
        exact ih k rest h
  · intro j ctxs inputs hfs k rest sel hdec htr hloop hget
    simp [persona_phase, get_contexts, htr, hdec, hloop, hget]
  · intro t role content hfs h
    simp [save_chat_to_history, h]

/-- C2 witness: with three personas and the inputs "0", "4", "2", the first
two are rejected and the third selects the second persona, seeding and
persisting exactly one user Message holding its context text; with an
absent contexts file, selection is skipped untouched; the individual
rejection, bound and single-entry-persistence parts at those inputs. -/
theorem persona_phase_spec_witness :
    persona_phase (FileState.content (Json.arr
        [Json.obj [("name", Json.str "A"), ("context", Json.str "ca")],
         Json.obj [("name", Json.str "B"), ("context", Json.str "cb")],
         Json.obj [("name", Json.str "C"), ("context", Json.str "cc")]]))
      ["0", "4", "2"] FileState.absent =
      some (Json.arr [mkEntry "user" "cb"],
        FileState.content (Json.arr [mkEntry "user" "cb"]), [])
    ∧ persona_phase FileState.absent ["1"] FileState.corrupt =
      some (Json.arr [], FileState.corrupt, ["1"])
    ∧ valid_sel 3 "0" = none
    ∧ valid_sel 3 "4" = none
    ∧ valid_sel 3 "x" = none
    ∧ persona_loop 3 ["0", "4", "2"] = persona_loop 3 ["4", "2"]
    ∧ (persona_loop 3 ["0", "4", "2"] = some (1, []) → 1 < 3)
    ∧ save_chat_to_history "context" "user" "cb" FileState.absent =
      FileState.content (Json.arr [mkEntry "user" "cb"]) := by
  refine ⟨?_, persona_phase_spec.1 ["1"] FileState.corrupt,
    persona_phase_spec.2.2.2.2.1 3 "0" (Or.inr ⟨0, rfl, Or.inl (by decide)⟩),
    persona_phase_spec.2.2.2.2.1 3 "4" (Or.inr ⟨4, rfl, Or.inr (by decide)⟩),
    persona_phase_spec.2.2.2.2.1 3 "x" (Or.inl rfl),
    persona_phase_spec.2.2.2.1 3 "0" ["4", "2"] rfl,
    fun h => persona_phase_spec.2.2.2.2.2.1 3 ["0", "4", "2"] 1 [] h,
    persona_phase_spec.2.2.2.2.2.2.2 "context" "user" "cb" FileState.absent rfl⟩
  have h := persona_phase_spec.2.2.2.2.2.2.1
    (Json.arr
      [Json.obj [("name", Json.str "A"), ("context", Json.str "ca")],
       Json.obj [("name", Json.str "B"), ("context", Json.str "cb")],
       Json.obj [("name", Json.str "C"), ("context", Json.str "cc")]])
    [⟨Json.str "A", "ca"⟩, ⟨Json.str "B", "cb"⟩, ⟨Json.str "C", "cc"⟩]
    ["0", "4", "2"] FileState.absent 1 [] ⟨Json.str "B", "cb"⟩ rfl rfl rfl rfl
  rw [h]
  rfl

end CliChatbot
